import Mathlib

/-!
Verification of the RL decision interface of the drl-cloudsimplus load balancer.

Shallow embedding of the Python code in
src/drl-manager/gym_cloudsimplus/envs/loadbalancing_env.py (class LoadBalancingEnv)
and src/drl-manager/mnt/callbacks/save_on_best_training_reward_callback.py
(class SaveOnBestTrainingRewardCallback).

Machine floats are modelled as exact rationals; where the exact bit-level
behaviour of IEEE-754 binary64 arithmetic matters (the space sizer), the
rounding of a rational to the nearest double is modelled explicitly.
-/

set_option maxRecDepth 10000

namespace LoadBalancingEnv

/-! ## Space sizer (loadbalancing_env.py, constructor, lines 90-113)

The constructor computes max_potential_vms with numpy double arithmetic:
int(np.ceil((datacenter_cores / small_vm_pes) * 1.1)).  Both the true
division of the two Python integers and the multiplication by the double
literal 1.1 round to the nearest binary64 value, so we model that rounding
exactly on rationals (round to nearest, ties to even; the magnitudes that
occur are far inside the normal range, so overflow and subnormals are
irrelevant). -/

/-- Fuel-bounded floor of the base-2 logarithm of a natural number.
With fuel at least the bit length of n this equals the exact floor log. -/
def log2Fuel : ℕ → ℕ → ℕ
  | 0, _ => 0
  | fuel + 1, n => if 2 ≤ n then log2Fuel fuel (n / 2) + 1 else 0

/-- Floor of the base-2 logarithm of the positive rational a / b, computed
on an arbitrary (not necessarily reduced) representation with integer
arithmetic only. -/
def ratFloorLog2Pair (a b : ℕ) : ℤ :=
  let e : ℤ := (log2Fuel 128 a : ℤ) - (log2Fuel 128 b : ℤ)
  if 0 ≤ e then (if b * 2 ^ e.toNat ≤ a then e else e - 1)
  else (if b ≤ a * 2 ^ (-e).toNat then e else e - 1)

/-- Round the rational a / b (with b > 0) to the nearest integer, ties to
even, with integer arithmetic only. -/
def roundHalfEvenPair (a : ℤ) (b : ℕ) : ℤ :=
  let f := Int.ediv a b
  let r2 := 2 * (a - f * b)
  if r2 < b then f
  else if (b : ℤ) < r2 then f + 1
  else if f % 2 = 0 then f else f + 1

/-- A binary64 value represented exactly as mantissa * 2 ^ exponent. -/
abbrev DyadicFloat := ℤ × ℤ

/-- Round the non-negative rational a / b (b > 0) to the nearest IEEE-754
binary64 value (round to nearest, ties to even).  The magnitudes occurring
in the space sizer are far inside the normal range, so overflow and
subnormals need no treatment. -/
def flPair (a b : ℕ) : DyadicFloat :=
  if a = 0 then ((0 : ℤ), (0 : ℤ))
  else
    let e := ratFloorLog2Pair a b
    let s := 52 - e
    let m :=
      if 0 ≤ s then roundHalfEvenPair ((a : ℤ) * 2 ^ s.toNat) b
      else roundHalfEvenPair (a : ℤ) (b * 2 ^ (-s).toNat)
    (m, e - 52)

/-- Binary64 multiplication of two non-negative doubles: form the exact
product and round it back to the nearest binary64 value. -/
def mulDouble (x y : DyadicFloat) : DyadicFloat :=
  let m := x.1 * y.1
  let e := x.2 + y.2
  if 0 ≤ e then flPair (m * 2 ^ e.toNat).toNat 1
  else flPair m.toNat (2 ^ (-e).toNat)

/-- Exact mathematical ceiling of the dyadic value mantissa * 2 ^ exponent;
this is what int(np.ceil(x)) returns for a double x of this magnitude. -/
def ceilDyadic (x : DyadicFloat) : ℤ :=
  if 0 ≤ x.2 then x.1 * 2 ^ x.2.toNat
  else -(Int.ediv (-x.1) (2 ^ (-x.2).toNat))

/-- The binary64 value of the Python literal 1.1 (not exactly 11/10). -/
def double1_1 : DyadicFloat := flPair 11 10

/-- The configuration fields read by the space-sizing code in the
constructor: hosts_count, host_pes, small_vm_pes and the three
initial VM counts (the latter default to 0 when absent). -/
structure InfraConfig where
  hosts_count : ℤ
  host_pes : ℤ
  small_vm_pes : ℤ
  initial_s_vm_count : ℤ
  initial_m_vm_count : ℤ
  initial_l_vm_count : ℤ
  deriving DecidableEq

/-- Line 92: self.datacenter_cores = self.num_hosts * self.host_pes. -/
def datacenter_cores (c : InfraConfig) : ℤ := c.hosts_count * c.host_pes

/-- Line 96: self.min_job_pes = 1. -/
def min_job_pes : ℤ := 1

/-- Lines 99-103: the degenerate fallback max(10, sum of initial VM counts)
when hosts_count, host_pes or small_vm_pes is non-positive, otherwise
int(np.ceil((datacenter_cores / small_vm_pes) * 1.1)): the Python true
division of the two integers rounds to the nearest binary64 value, the
multiplication by the double literal 1.1 rounds the exact product back to
binary64, and np.ceil is exact at these magnitudes. -/
def max_potential_vms (c : InfraConfig) : ℤ :=
  if c.hosts_count ≤ 0 ∨ c.host_pes ≤ 0 ∨ c.small_vm_pes ≤ 0 then
    max 10 (c.initial_s_vm_count + c.initial_m_vm_count + c.initial_l_vm_count)
  else
    ceilDyadic (mulDouble (flPair (datacenter_cores c).toNat c.small_vm_pes.toNat) double1_1)

/-- Line 107: max_potential_jobs = datacenter_cores // min_job_pes. -/
def max_potential_jobs (c : InfraConfig) : ℤ := datacenter_cores c / min_job_pes

/-- Line 112: tree_array_max_len
= 2 + 2 * num_hosts + 2 * max_potential_vms + 2 * max_potential_jobs. -/
def tree_array_max_len (c : InfraConfig) : ℤ :=
  2 + 2 * c.hosts_count + 2 * max_potential_vms c + 2 * max_potential_jobs c

/-- Modelled from the claim text, for the refinement comparison only:
max_potential_vms as the exact rational ceiling
ceil(host_count * host_pes / small_vm_pes * 1.1), with the same
degenerate fallback. -/
def claimed_max_potential_vms (c : InfraConfig) : ℤ :=
  if c.hosts_count ≤ 0 ∨ c.host_pes ≤ 0 ∨ c.small_vm_pes ≤ 0 then
    max 10 (c.initial_s_vm_count + c.initial_m_vm_count + c.initial_l_vm_count)
  else
    ⌈((datacenter_cores c : ℚ) / (c.small_vm_pes : ℚ)) * (11 / 10)⌉

/-! ## Snapshot codec: the _get_obs method (lines 185-231)

Py4J hands over the Java ObservationState; _get_obs converts each array
with _to_nparray (an exact copy), pads or truncates the infrastructure
tree array to the fixed target length, normalizes the two scalar
counters, and asserts that the five remaining array shapes match the
observation space.  A None input yields an all-zero observation dict
(lines 187-190).  Floats are modelled as exact rationals. -/

/-- The shape data fixed by the observation space definition (lines
127-143): num_hosts sizes the two host arrays, max_potential_vms sizes
the three VM arrays, tree_array_max_len sizes the infrastructure array. -/
structure SpaceShape where
  num_hosts : ℕ
  max_potential_vms : ℕ
  tree_array_max_len : ℕ
  deriving DecidableEq

/-- The normalization ceilings max_queue_norm and max_pes_norm
(lines 147-150). -/
structure NormConfig where
  max_queue_norm : ℚ
  max_pes_norm : ℚ
  deriving DecidableEq

/-- The fields of the Java ObservationState read by _get_obs
(getHostLoads, getHostRamUsageRatio, getVmLoads, getVmTypes,
getVmHostMap, getInfrastructureObservation, getWaitingCloudlets,
getNextCloudletPes). -/
structure RawObs where
  hostLoads : List ℚ
  hostRamUsageRatios : List ℚ
  vmLoads : List ℚ
  vmTypes : List ℤ
  vmHostMap : List ℤ
  infrastructureObservation : List ℤ
  waitingCloudlets : ℚ
  nextCloudletPes : ℚ
  deriving DecidableEq

/-- The observation dictionary built by _get_obs.  The key
host_ram_usage_ratio is modelled by the field hostRamRatios. -/
structure Observation where
  host_loads : List ℚ
  hostRamRatios : List ℚ
  vm_loads : List ℚ
  vm_types : List ℤ
  vm_host_map : List ℤ
  infrastructure_observation : List ℤ
  waiting_cloudlets : List ℚ
  next_cloudlet_pes : List ℚ
  deriving DecidableEq

/-- The zeroed-out observation matching the space structure that
_get_obs returns for a null input (line 190), and that reset and step
return on failure (lines 182, 284). -/
def zeroObservation (sh : SpaceShape) : Observation :=
  { host_loads := List.replicate sh.num_hosts 0
    hostRamRatios := List.replicate sh.num_hosts 0
    vm_loads := List.replicate sh.max_potential_vms 0
    vm_types := List.replicate sh.max_potential_vms 0
    vm_host_map := List.replicate sh.max_potential_vms 0
    infrastructure_observation := List.replicate sh.tree_array_max_len 0
    waiting_cloudlets := [0]
    next_cloudlet_pes := [0] }

/-- Lines 202-204: infra_obs_padded = np.zeros(target_len); copy the
first min(raw length, target length) raw entries into it. -/
def padTruncate (target : ℕ) (raw : List ℤ) : List ℤ :=
  let len_to_copy := min raw.length target
  raw.take len_to_copy ++ List.replicate (target - len_to_copy) 0

/-- Lines 205-206: the truncation warning is emitted exactly when
len(infra_obs_java) >= target_len (note: also at equality). -/
def truncationWarningCount (target : ℕ) (raw : List ℤ) : ℕ :=
  if target ≤ raw.length then 1 else 0

/-- Exceptions surfacing from the modelled Python code. -/
inductive PyError where
  | attributeError
  | assertionError
  deriving DecidableEq

/-- The _get_obs method (lines 185-231).  A None java_obs_state returns
the zeroed observation; otherwise the infrastructure array is padded or
truncated to the fixed length, the two counters are normalized with
min(value / ceiling, 1.0), and the five assert statements on lines
214-218 raise AssertionError when any of the remaining array lengths
disagrees with the observation space. -/
def get_obs (sh : SpaceShape) (norm : NormConfig) (java_obs_state : Option RawObs) :
    Except PyError Observation :=
  match java_obs_state with
  | none => .ok (zeroObservation sh)
  | some r =>
    let infra_obs_padded := padTruncate sh.tree_array_max_len r.infrastructureObservation
    let waiting_cloudlets_norm := [min (r.waitingCloudlets / norm.max_queue_norm) 1]
    let next_cloudlet_pes_norm := [min (r.nextCloudletPes / norm.max_pes_norm) 1]
    if r.hostLoads.length = sh.num_hosts
        ∧ r.hostRamUsageRatios.length = sh.num_hosts
        ∧ r.vmLoads.length = sh.max_potential_vms
        ∧ r.vmTypes.length = sh.max_potential_vms
        ∧ r.vmHostMap.length = sh.max_potential_vms then
      .ok
        { host_loads := r.hostLoads
          hostRamRatios := r.hostRamUsageRatios
          vm_loads := r.vmLoads
          vm_types := r.vmTypes
          vm_host_map := r.vmHostMap
          infrastructure_observation := infra_obs_padded
          waiting_cloudlets := waiting_cloudlets_norm
          next_cloudlet_pes := next_cloudlet_pes_norm }
    else .error .assertionError

/-! ## The step method (lines 249-285) -/

/-- The fields of the Java StepResult read by step: getObservation (null
when the gateway returned nothing usable), getReward, isTerminated,
isTruncated. -/
structure StepJavaResult where
  observation : Option RawObs
  reward : ℚ
  terminated : Bool
  truncated : Bool
  deriving DecidableEq

/-- The slice of the info dictionary the claims are about: the presence
of the error flag set on line 285. -/
structure InfoDict where
  error : Option String
  deriving DecidableEq

/-- The step method (lines 249-285).  The whole simulator round-trip and
decode sit inside one try block: an exception from the gateway call, or
from _get_obs on its result, is caught on line 280 and replaced by the
synthesized terminal step (dummy all-zero observation, reward 0.0,
terminated=True, truncated=False, an error entry in info). -/
def step (sh : SpaceShape) (norm : NormConfig) (sim : Except PyError StepJavaResult) :
    Observation × ℚ × Bool × Bool × InfoDict :=
  match sim with
  | .error _ => (zeroObservation sh, 0, true, false, { error := some "Step failed" })
  | .ok r =>
    match get_obs sh norm r.observation with
    | .error _ => (zeroObservation sh, 0, true, false, { error := some "Step failed" })
    | .ok observation => (observation, r.reward, r.terminated, r.truncated, { error := none })

/-! ## Action mask engine: the action_masks method (lines 352-455)

action_masks is a pure function of the stored last_observation and the
two static sizes self.num_hosts and self.max_potential_vms.  Each
sub-mask is an imperative boolean list; we model the lists by their
index functions and flatten over List.range, which reads exactly the
indices the Python lists hold. -/

/-- The static configuration read by action_masks. -/
structure MaskConfig where
  num_hosts : ℕ
  max_potential_vms : ℕ
  deriving DecidableEq

/-- The entries of the stored last_observation dictionary that
action_masks reads (lines 370-375): vm_types, host_loads,
host_ram_usage_ratio (field hostRamRatios), the scalar extracted from
waiting_cloudlets, and the optional actual_vm_count dictionary entry
looked up with .get on line 375 (absent in dictionaries produced by
_get_obs, in which case np.count_nonzero(vm_types) is used).  The
arrays are modelled as index functions; only indices below the
respective fixed sizes are ever read. -/
structure StoredObs where
  vm_types : ℕ → ℤ
  host_loads : ℕ → ℚ
  hostRamRatios : ℕ → ℚ
  waiting_cloudlets : ℚ
  actual_vm_count_entry : Option ℕ

/-- Python np.count_nonzero over the n entries of an integer array. -/
def countNonzero (f : ℕ → ℤ) (n : ℕ) : ℕ :=
  ((List.range n).filter (fun i => decide (f i ≠ 0))).length

/-- Line 375: actual_vm_count = last_observation.get(key, count_nonzero). -/
def actualVmCount (cfg : MaskConfig) (o : StoredObs) : ℕ :=
  o.actual_vm_count_entry.getD (countNonzero o.vm_types cfg.max_potential_vms)

/-- Line 386: can_assign = waiting_cloudlets > 1e-6 (the epsilon is the
double literal 1e-6; its exact value is immaterial to the claims, which
quantify over the rational field values, so it is modelled as 10^-6). -/
def canAssign (o : StoredObs) : Bool := decide ((1 : ℚ) / 1000000 < o.waiting_cloudlets)

/-- Lines 389-393 and 424-428: a VM slot counts as active when its type
tag is positive; active_vm_found scans all max_potential_vms slots. -/
def activeVmFound (cfg : MaskConfig) (o : StoredObs) : Bool :=
  (List.range cfg.max_potential_vms).any (fun i => decide (0 < o.vm_types i))

/-- Final value of action_type_mask[1]: set on line 388 when the queue
is non-empty, revoked on line 395 when no active VM exists. -/
def assignBit (cfg : MaskConfig) (o : StoredObs) : Bool :=
  canAssign o && activeVmFound cfg o

/-- Line 402: can_potentially_create = actual_vm_count < max_potential_vms. -/
def canPotentiallyCreate (cfg : MaskConfig) (o : StoredObs) : Bool :=
  decide (actualVmCount cfg o < cfg.max_potential_vms)

/-- Line 407: a host is suitable when both its load and its RAM ratio
are below 0.99. -/
def hostSuitable (o : StoredObs) (host_id : ℕ) : Bool :=
  decide (o.host_loads host_id < 99 / 100) && decide (o.hostRamRatios host_id < 99 / 100)

/-- Lines 404-409: scan of the num_hosts hosts for a suitable one. -/
def suitableHostFound (cfg : MaskConfig) (o : StoredObs) : Bool :=
  (List.range cfg.num_hosts).any (hostSuitable o)

/-- Final value of action_type_mask[2] (lines 410-415). -/
def createBit (cfg : MaskConfig) (o : StoredObs) : Bool :=
  canPotentiallyCreate cfg o && suitableHostFound cfg o

/-- Line 421: can_destroy = actual_vm_count > 0. -/
def canDestroy (cfg : MaskConfig) (o : StoredObs) : Bool :=
  decide (0 < actualVmCount cfg o)

/-- Final value of action_type_mask[3]: set on line 423, revoked by the
safety check on line 430 when no active VM slot exists. -/
def destroyBit (cfg : MaskConfig) (o : StoredObs) : Bool :=
  canDestroy cfg o && activeVmFound cfg o

/-- vm_id_mask after the three action blocks (before the final fallback):
index i is set by the Assign loop (line 392, only when can_assign), by
the Destroy loop (line 427, only when can_destroy), or as the dummy
vm_id 0 when Create ended up legal (line 413). -/
def vmIdBit3 (cfg : MaskConfig) (o : StoredObs) (i : ℕ) : Bool :=
  ((canAssign o || canDestroy cfg o) && decide (0 < o.vm_types i))
    || (createBit cfg o && decide (i = 0))

/-- host_id_mask after the three action blocks: the dummy host 0 when
Assign is legal (line 398), the per-host suitability bits of the Create
loop (line 408, only when can_potentially_create), the kept-enabled
dummy host 0 when Create found no suitable host (line 417), and the
dummy host 0 when Destroy is legal (line 433). -/
def hostIdBit3 (cfg : MaskConfig) (o : StoredObs) (h : ℕ) : Bool :=
  (assignBit cfg o && decide (h = 0))
    || (canPotentiallyCreate cfg o && decide (h < cfg.num_hosts) && hostSuitable o h)
    || (canPotentiallyCreate cfg o && !suitableHostFound cfg o && decide (h = 0))
    || (destroyBit cfg o && decide (h = 0))

/-- vm_type_mask after the three action blocks: line 412 overwrites the
whole list with [True, True, True] when Create is legal; otherwise the
dummy type 0 is set when Assign is legal (line 399), when Create found
no suitable host (line 418), or when Destroy is legal (line 434). -/
def vmTypeBit3 (cfg : MaskConfig) (o : StoredObs) (t : ℕ) : Bool :=
  if createBit cfg o then true
  else
    (assignBit cfg o && decide (t = 0))
      || (canPotentiallyCreate cfg o && !suitableHostFound cfg o && decide (t = 0))
      || (destroyBit cfg o && decide (t = 0))

/-- Line 438: any(action_type_mask[1:]). -/
def anyNonNoOp (cfg : MaskConfig) (o : StoredObs) : Bool :=
  assignBit cfg o || createBit cfg o || destroyBit cfg o

/-- Line 439: any(vm_id_mask) before the fallback writes. -/
def anyVmIdBit3 (cfg : MaskConfig) (o : StoredObs) : Bool :=
  (List.range cfg.max_potential_vms).any (vmIdBit3 cfg o)

/-- Line 440: any(host_id_mask) before the fallback writes. -/
def anyHostIdBit3 (cfg : MaskConfig) (o : StoredObs) : Bool :=
  (List.range cfg.num_hosts).any (hostIdBit3 cfg o)

/-- Line 441: any(vm_type_mask) before the fallback writes. -/
def anyVmTypeBit3 (cfg : MaskConfig) (o : StoredObs) : Bool :=
  (List.range 3).any (vmTypeBit3 cfg o)

/-- vm_id_mask after the fallback (lines 438-445): index 0 is forced on
when only NoOp is legal, or when some other action is legal but the
sub-mask would otherwise be all false. -/
def vmIdBitFinal (cfg : MaskConfig) (o : StoredObs) (i : ℕ) : Bool :=
  vmIdBit3 cfg o i || (decide (i = 0) && (!anyNonNoOp cfg o || !anyVmIdBit3 cfg o))

/-- host_id_mask after the fallback (lines 438-445). -/
def hostIdBitFinal (cfg : MaskConfig) (o : StoredObs) (h : ℕ) : Bool :=
  hostIdBit3 cfg o h || (decide (h = 0) && (!anyNonNoOp cfg o || !anyHostIdBit3 cfg o))

/-- vm_type_mask after the fallback (lines 438-445). -/
def vmTypeBitFinal (cfg : MaskConfig) (o : StoredObs) (t : ℕ) : Bool :=
  vmTypeBit3 cfg o t || (decide (t = 0) && (!anyNonNoOp cfg o || !anyVmTypeBit3 cfg o))

/-- The four sub-masks as concrete boolean lists. -/
structure MaskParts where
  actionTypeMask : List Bool
  vmIdMask : List Bool
  hostIdMask : List Bool
  vmTypeMask : List Bool
  deriving DecidableEq

/-- The four completed sub-masks of action_masks for a stored
observation: action_type_mask starts as [True, False, False, False]
(line 378) and only indices 1-3 are ever rewritten. -/
def action_masksParts (cfg : MaskConfig) (o : StoredObs) : MaskParts :=
  { actionTypeMask := [true, assignBit cfg o, createBit cfg o, destroyBit cfg o]
    vmIdMask := (List.range cfg.max_potential_vms).map (vmIdBitFinal cfg o)
    hostIdMask := (List.range cfg.num_hosts).map (hostIdBitFinal cfg o)
    vmTypeMask := (List.range 3).map (vmTypeBitFinal cfg o) }

/-- Value of self.action_space.nvec.sum() = 4 + max_potential_vms + num_hosts + 3
(lines 116-123). -/
def totalActionDims (cfg : MaskConfig) : ℕ :=
  4 + cfg.max_potential_vms + cfg.num_hosts + 3

/-- Lines 448-455: final_mask is the concatenation of the four
sub-masks; the defensive length check on line 451 would return an
all-true mask on a length mismatch (dead code: the lengths agree by
construction). -/
def action_masks (cfg : MaskConfig) (o : StoredObs) : List Bool :=
  let p := action_masksParts cfg o
  let final_mask := p.actionTypeMask ++ p.vmIdMask ++ p.hostIdMask ++ p.vmTypeMask
  if final_mask.length ≠ totalActionDims cfg then List.replicate (totalActionDims cfg) true
  else final_mask

/-- The three possible states of the last_observation attribute of the
environment object: never assigned (a fresh environment before the
first successful reset; __init__ does not initialize it, so reading it
raises AttributeError), assigned the value None, or assigned a stored
observation dictionary (_update_internal_state, line 292). -/
inductive LastObsAttr where
  | missing
  | noneVal
  | stored (o : StoredObs)

/-- Lines 357-367: the early-exit mask built when last_observation is
None: list of total_action_dims False entries with the four dummy
indices 0, 4, 4 + max_potential_vms and 4 + max_potential_vms +
num_hosts set to True. -/
def noOpOnlyMask (cfg : MaskConfig) : List Bool :=
  (((((List.replicate (totalActionDims cfg) false).set 0 true).set 4 true).set
      (4 + cfg.max_potential_vms) true).set
    (4 + cfg.max_potential_vms + cfg.num_hosts) true)

/-- The action_masks method including the attribute access on line 357:
on a fresh environment the attribute does not exist and the read raises
AttributeError; when the attribute holds None the NoOp-only mask is
returned; otherwise the mask is computed from the stored observation. -/
def action_masksMethod (cfg : MaskConfig) (attr : LastObsAttr) : Except PyError (List Bool) :=
  match attr with
  | .missing => .error .attributeError
  | .noneVal => .ok (noOpOnlyMask cfg)
  | .stored o => .ok (action_masks cfg o)

end LoadBalancingEnv

namespace SaveOnBestTrainingRewardCallback

/-! ## Episode telemetry aggregator
(save_on_best_training_reward_callback.py)

The callback accumulates one entry per step in fourteen parallel lists,
and on a terminal or truncated step assembles the episode-details table
and clears the accumulators.  The SB3 framework state it reads is
modelled explicitly: self.num_timesteps advances by one per step (single
environment), and whether the rolling-mean reward improved is an input
computed from the external Monitor file. -/

/-- The per-step data _save_timestep_details reads from self.locals:
the action 4-tuple, the scalar reward, the info-dictionary metrics
(lines 76-88, with their .get defaults), and the dones flag. -/
structure StepLocals where
  action : ℤ × ℤ × ℤ × ℤ
  reward : ℚ
  reward_wait_time : ℚ
  reward_unutilization : ℚ
  reward_cost : ℚ
  reward_queue_penalty : ℚ
  reward_invalid_action : ℚ
  assignment_success : Bool
  create_vm_success : Bool
  destroy_vm_success : Bool
  invalid_action_taken : Bool
  host_affected_id : ℤ
  cores_changed : ℤ
  actual_vm_count : ℤ
  current_clock : ℚ
  done : Bool
  deriving DecidableEq

/-- The mutable state of the callback object: the fourteen accumulator
lists and the episode-length counter of _clear_episode_details (lines
40-60), plus the SB3 counters num_timesteps and the Monitor episode
counter. -/
structure CallbackState where
  actions : List (ℤ × ℤ × ℤ × ℤ)
  rewards : List ℚ
  reward_wait_times : List ℚ
  reward_unutilizations : List ℚ
  reward_costs : List ℚ
  reward_queue_penalties : List ℚ
  reward_invalid_actions : List ℚ
  assignment_successes : List Bool
  create_vm_successes : List Bool
  destroy_vm_successes : List Bool
  invalid_actions_taken : List Bool
  host_affected_ids : List ℤ
  cores_changed : List ℤ
  actual_vm_counts : List ℤ
  current_clocks : List ℚ
  current_episode_length : ℕ
  num_timesteps : ℕ
  current_episode_num_monitor : ℕ
  deriving DecidableEq

/-- Method _clear_episode_details (lines 40-60): empty every accumulator and
reset the episode-length counter. -/
def clear_episode_details (s : CallbackState) : CallbackState :=
  { s with
    actions := []
    rewards := []
    reward_wait_times := []
    reward_unutilizations := []
    reward_costs := []
    reward_queue_penalties := []
    reward_invalid_actions := []
    assignment_successes := []
    create_vm_successes := []
    destroy_vm_successes := []
    invalid_actions_taken := []
    host_affected_ids := []
    cores_changed := []
    actual_vm_counts := []
    current_clocks := []
    current_episode_length := 0 }

/-- Method _save_timestep_details (lines 62-90): append this step to every
accumulator and increment the episode length. -/
def save_timestep_details (s : CallbackState) (loc : StepLocals) : CallbackState :=
  { s with
    actions := s.actions ++ [loc.action]
    rewards := s.rewards ++ [loc.reward]
    reward_wait_times := s.reward_wait_times ++ [loc.reward_wait_time]
    reward_unutilizations := s.reward_unutilizations ++ [loc.reward_unutilization]
    reward_costs := s.reward_costs ++ [loc.reward_cost]
    reward_queue_penalties := s.reward_queue_penalties ++ [loc.reward_queue_penalty]
    reward_invalid_actions := s.reward_invalid_actions ++ [loc.reward_invalid_action]
    assignment_successes := s.assignment_successes ++ [loc.assignment_success]
    create_vm_successes := s.create_vm_successes ++ [loc.create_vm_success]
    destroy_vm_successes := s.destroy_vm_successes ++ [loc.destroy_vm_success]
    invalid_actions_taken := s.invalid_actions_taken ++ [loc.invalid_action_taken]
    host_affected_ids := s.host_affected_ids ++ [loc.host_affected_id]
    cores_changed := s.cores_changed ++ [loc.cores_changed]
    actual_vm_counts := s.actual_vm_counts ++ [loc.actual_vm_count]
    current_clocks := s.current_clocks ++ [loc.current_clock]
    current_episode_length := s.current_episode_length + 1 }

/-- The robustness reshaping applied to every column of the episode
table (lines 125-133): truncate when longer than the expected length,
pad with the padding value when shorter. -/
def fitColumn {α : Type} (expected : ℕ) (pad : α) (l : List α) : List α :=
  if expected < l.length then l.take expected
  else l ++ List.replicate (expected - l.length) pad

/-- The padding of a non-numeric (boolean) column uses None (line 132);
the padded column is therefore a list of optional booleans. -/
def fitBoolColumn (expected : ℕ) (l : List Bool) : List (Option Bool) :=
  fitColumn expected none (l.map some)

/-- The episode-details table assembled by _create_episode_details_dict:
one column per recorded field (lines 100-122). -/
structure EpisodeDetails where
  timestep : List ℤ
  clock : List ℚ
  action_type : List ℤ
  target_vm_id : List ℤ
  target_host_id : List ℤ
  vm_type_index : List ℤ
  reward_total : List ℚ
  reward_wait_time : List ℚ
  reward_unutilization : List ℚ
  reward_cost : List ℚ
  reward_queue_penalty : List ℚ
  reward_invalid_action : List ℚ
  assignment_success : List (Option Bool)
  create_vm_success : List (Option Bool)
  destroy_vm_success : List (Option Bool)
  invalid_action_taken : List (Option Bool)
  host_affected_id : List ℤ
  cores_changed : List ℤ
  actual_vm_count : List ℤ
  deriving DecidableEq

/-- Method _create_episode_details_dict (lines 93-135).  The timestep column is
np.arange(ep_first_timestep, ep_last_timestep + 1), which always has
exactly current_episode_length entries; every column then passes through
the length-fitting loop of lines 125-133 (a no-op whenever the
accumulators are consistent). -/
def create_episode_details_dict (s : CallbackState) : EpisodeDetails :=
  let expected := s.current_episode_length
  let ep_first_timestep : ℤ := (s.num_timesteps : ℤ) - (s.current_episode_length : ℤ) + 1
  { timestep :=
      fitColumn expected 0 ((List.range s.current_episode_length).map
        (fun i => ep_first_timestep + (i : ℤ)))
    clock := fitColumn expected 0 s.current_clocks
    action_type := fitColumn expected 0 (s.actions.map (fun a => a.1))
    target_vm_id := fitColumn expected 0 (s.actions.map (fun a => a.2.1))
    target_host_id := fitColumn expected 0 (s.actions.map (fun a => a.2.2.1))
    vm_type_index := fitColumn expected 0 (s.actions.map (fun a => a.2.2.2))
    reward_total := fitColumn expected 0 s.rewards
    reward_wait_time := fitColumn expected 0 s.reward_wait_times
    reward_unutilization := fitColumn expected 0 s.reward_unutilizations
    reward_cost := fitColumn expected 0 s.reward_costs
    reward_queue_penalty := fitColumn expected 0 s.reward_queue_penalties
    reward_invalid_action := fitColumn expected 0 s.reward_invalid_actions
    assignment_success := fitBoolColumn expected s.assignment_successes
    create_vm_success := fitBoolColumn expected s.create_vm_successes
    destroy_vm_success := fitBoolColumn expected s.destroy_vm_successes
    invalid_action_taken := fitBoolColumn expected s.invalid_actions_taken
    host_affected_id := fitColumn expected 0 s.host_affected_ids
    cores_changed := fitColumn expected 0 s.cores_changed
    actual_vm_count := fitColumn expected 0 s.actual_vm_counts }

/-- Method _on_step (lines 185-234): record the step; if the dones flag is set,
bump the Monitor episode counter, assemble and persist the episode table
when the rolling-mean reward improved (is_new_best, computed from the
external Monitor results), and clear the accumulators.  num_timesteps
advances by one per step before the callback body runs. -/
def on_step (s : CallbackState) (loc : StepLocals) (is_new_best : Bool) :
    CallbackState × Option EpisodeDetails :=
  let s1 := save_timestep_details { s with num_timesteps := s.num_timesteps + 1 } loc
  if loc.done then
    let s2 := { s1 with current_episode_num_monitor := s1.current_episode_num_monitor + 1 }
    let table := if is_new_best then some (create_episode_details_dict s2) else none
    (clear_episode_details s2, table)
  else (s1, none)

/-- Fold of _on_step over a run of non-terminal steps. -/
def runNonTerminal (s : CallbackState) (locs : List StepLocals) : CallbackState :=
  locs.foldl (fun s l => (on_step s l false).1) s

/-- All fourteen accumulator lists and the episode-length counter agree
on the value n. -/
def accumulatorsLen (s : CallbackState) (n : ℕ) : Prop :=
  s.actions.length = n ∧ s.rewards.length = n ∧
    s.reward_wait_times.length = n ∧ s.reward_unutilizations.length = n ∧
    s.reward_costs.length = n ∧ s.reward_queue_penalties.length = n ∧
    s.reward_invalid_actions.length = n ∧ s.assignment_successes.length = n ∧
    s.create_vm_successes.length = n ∧ s.destroy_vm_successes.length = n ∧
    s.invalid_actions_taken.length = n ∧ s.host_affected_ids.length = n ∧
    s.cores_changed.length = n ∧ s.actual_vm_counts.length = n ∧
    s.current_clocks.length = n ∧ s.current_episode_length = n

/-- Every column of the episode-details table has exactly n rows. -/
def detailsRows (d : EpisodeDetails) (n : ℕ) : Prop :=
  d.timestep.length = n ∧ d.clock.length = n ∧ d.action_type.length = n ∧
    d.target_vm_id.length = n ∧ d.target_host_id.length = n ∧
    d.vm_type_index.length = n ∧ d.reward_total.length = n ∧
    d.reward_wait_time.length = n ∧ d.reward_unutilization.length = n ∧
    d.reward_cost.length = n ∧ d.reward_queue_penalty.length = n ∧
    d.reward_invalid_action.length = n ∧ d.assignment_success.length = n ∧
    d.create_vm_success.length = n ∧ d.destroy_vm_success.length = n ∧
    d.invalid_action_taken.length = n ∧ d.host_affected_id.length = n ∧
    d.cores_changed.length = n ∧ d.actual_vm_count.length = n

end SaveOnBestTrainingRewardCallback

namespace Examples

open LoadBalancingEnv SaveOnBestTrainingRewardCallback

/-! ## Concrete inputs used to instantiate the theorems -/

/-- A small mask configuration: 2 hosts, 3 potential VM slots. -/
def exMaskCfg : MaskConfig := { num_hosts := 2, max_potential_vms := 3 }

/-- A stored observation with an empty queue, no active VM slot and all
hosts at the 0.99 load threshold. -/
def exObsW : StoredObs :=
  { vm_types := fun _ => 0
    host_loads := fun _ => 99 / 100
    hostRamRatios := fun _ => 0
    waiting_cloudlets := 0
    actual_vm_count_entry := none }

/-- A small observation-space shape: 2 hosts, 3 VM slots, infrastructure
tree array of length 4. -/
def exShape : SpaceShape := { num_hosts := 2, max_potential_vms := 3, tree_array_max_len := 4 }

/-- Normalization ceilings. -/
def exNorm : NormConfig := { max_queue_norm := 100, max_pes_norm := 8 }

/-- A raw snapshot whose host-loads array is too short for the shape
(1 entry instead of 2); every other array has the fixed length. -/
def exRawBadHosts : RawObs :=
  { hostLoads := [0]
    hostRamUsageRatios := [0, 0]
    vmLoads := [0, 0, 0]
    vmTypes := [1, 0, 0]
    vmHostMap := [0, -1, -1]
    infrastructureObservation := [5, 6]
    waitingCloudlets := 0
    nextCloudletPes := 0 }

/-- A raw snapshot with all five checked arrays at their fixed lengths
and an over-long infrastructure array (5 entries for a target of 4). -/
def exRawGood : RawObs :=
  { hostLoads := [0, 1]
    hostRamUsageRatios := [0, 0]
    vmLoads := [0, 1, 0]
    vmTypes := [1, 0, 0]
    vmHostMap := [0, -1, -1]
    infrastructureObservation := [5, 6, 7, 8, 9]
    waitingCloudlets := 0
    nextCloudletPes := 0 }

/-- The degenerate infrastructure configuration (zero hosts) exercising
the space-sizer fallback. -/
def exDegenerateConfig : InfraConfig :=
  { hosts_count := 0, host_pes := 5, small_vm_pes := 5
    initial_s_vm_count := 2, initial_m_vm_count := 3, initial_l_vm_count := 4 }

/-- The configuration on which the exact-ceiling reading of the space
sizer diverges from the code: 5 hosts of 10 PEs, small VMs of 1 PE, so
datacenter_cores / small_vm_pes = 50 and 50 * 1.1 rounds up to
55.00000000000001 in binary64. -/
def exCounterConfig : InfraConfig :=
  { hosts_count := 5, host_pes := 10, small_vm_pes := 1
    initial_s_vm_count := 0, initial_m_vm_count := 0, initial_l_vm_count := 0 }

/-- The documented end-to-end scenario: 8 hosts of 16 PEs, small VMs of
2 PEs. -/
def exScenarioConfig : InfraConfig :=
  { hosts_count := 8, host_pes := 16, small_vm_pes := 2
    initial_s_vm_count := 0, initial_m_vm_count := 0, initial_l_vm_count := 0 }

/-- The callback state right after construction or after a clear: all
accumulators empty, counters at zero. -/
def exInitState : CallbackState :=
  { actions := [], rewards := [], reward_wait_times := []
    reward_unutilizations := [], reward_costs := [], reward_queue_penalties := []
    reward_invalid_actions := [], assignment_successes := [], create_vm_successes := []
    destroy_vm_successes := [], invalid_actions_taken := [], host_affected_ids := []
    cores_changed := [], actual_vm_counts := [], current_clocks := []
    current_episode_length := 0, num_timesteps := 0, current_episode_num_monitor := 0 }

/-- A non-terminal step record. -/
def exStep1 : StepLocals :=
  { action := (1, 0, 0, 0), reward := 2, reward_wait_time := 1
    reward_unutilization := 0, reward_cost := 0, reward_queue_penalty := 0
    reward_invalid_action := 0, assignment_success := true, create_vm_success := false
    destroy_vm_success := false, invalid_action_taken := false, host_affected_id := -1
    cores_changed := 0, actual_vm_count := 1, current_clock := 3, done := false }

/-- A terminal step record. -/
def exStepT : StepLocals :=
  { action := (0, 0, 0, 0), reward := 1, reward_wait_time := 0
    reward_unutilization := 0, reward_cost := 0, reward_queue_penalty := 0
    reward_invalid_action := 0, assignment_success := false, create_vm_success := false
    destroy_vm_success := false, invalid_action_taken := false, host_affected_id := -1
    cores_changed := 0, actual_vm_count := 1, current_clock := 4, done := true }

end Examples

namespace LoadBalancingEnv

open Examples

/-! ## Shared helper lemmas -/

theorem padTruncate_length (target : ℕ) (raw : List ℤ) :
    (padTruncate target raw).length = target := by
  simp only [padTruncate, List.length_append, List.length_take, List.length_replicate]
  omega

/-! ## Claim theorems for the snapshot codec and the step method -/

/-- Claim C4: decoding the raw infrastructure array yields exactly the
fixed target length, the leading min(raw length, target) entries are the
raw entries, the rest is zero; a shorter raw array reports no
truncation, a longer one reports truncation exactly once. -/
theorem decode_infra_pad_truncate (target : ℕ) (raw : List ℤ) :
    (padTruncate target raw).length = target
    ∧ (∀ i, i < min raw.length target →
        (padTruncate target raw).getD i 0 = raw.getD i 0)
    ∧ (∀ i, min raw.length target ≤ i → i < target →
        (padTruncate target raw).getD i 0 = 0)
    ∧ (raw.length < target → truncationWarningCount target raw = 0)
    ∧ (target < raw.length → truncationWarningCount target raw = 1) := by
  refine ⟨padTruncate_length target raw, ?_, ?_, ?_, ?_⟩
  · intro i hi
    simp only [padTruncate, List.getD_eq_getElem?_getD]
    rw [List.getElem?_append_left, List.getElem?_take, if_pos hi]
    simp only [List.length_take]
    omega
  · intro i hle hlt
    simp only [padTruncate, List.getD_eq_getElem?_getD]
    rw [List.getElem?_append_right, List.getElem?_replicate, if_pos]
    · rfl
    · simp only [List.length_take]; omega
    · simp only [List.length_take]; omega
  · intro h
    simp only [truncationWarningCount, if_neg (by omega : ¬ target ≤ raw.length)]
  · intro h
    simp only [truncationWarningCount, if_pos (by omega : target ≤ raw.length)]

/-- Witness for C4 at target length 3 and raw array [4, 5]. -/
theorem decode_infra_pad_truncate_witness :
    (padTruncate 3 [4, 5]).length = 3
    ∧ (padTruncate 3 [4, 5]).getD 0 0 = ([4, 5] : List ℤ).getD 0 0
    ∧ (padTruncate 3 [4, 5]).getD 2 0 = 0
    ∧ truncationWarningCount 3 [4, 5] = 0 :=
  ⟨(decode_infra_pad_truncate 3 [4, 5]).1,
   (decode_infra_pad_truncate 3 [4, 5]).2.1 0 (by decide),
   (decode_infra_pad_truncate 3 [4, 5]).2.2.1 2 (by decide) (by decide),
   (decode_infra_pad_truncate 3 [4, 5]).2.2.2.1 (by decide)⟩

/-- Claim C10: the truncation report fires exactly when the raw length
is at least the target length — in particular at equal lengths, where
the copy is the identity and no data is lost. -/
theorem truncation_warning_at_equal_length (target : ℕ) (raw : List ℤ) :
    (truncationWarningCount target raw = 1 ↔ target ≤ raw.length)
    ∧ (raw.length = target → padTruncate target raw = raw) := by
  constructor
  · by_cases h : target ≤ raw.length <;> simp [truncationWarningCount, h]
  · intro h
    subst h
    simp [padTruncate]

/-- Witness for C10 at target length 2 and raw array [7, 9]. -/
theorem truncation_warning_at_equal_length_witness :
    truncationWarningCount 2 [7, 9] = 1 ∧ padTruncate 2 [7, 9] = [7, 9] :=
  ⟨(truncation_warning_at_equal_length 2 [7, 9]).1.mpr (by decide),
   (truncation_warning_at_equal_length 2 [7, 9]).2 (by decide)⟩

/-- Claim C7: a null raw snapshot decodes without error into the
observation whose every field has its fixed SpaceShape length with all
entries zero. -/
theorem decode_null_returns_zero_snapshot (sh : SpaceShape) (norm : NormConfig) :
    get_obs sh norm none = Except.ok (zeroObservation sh)
    ∧ (zeroObservation sh).host_loads.length = sh.num_hosts
    ∧ (zeroObservation sh).hostRamRatios.length = sh.num_hosts
    ∧ (zeroObservation sh).vm_loads.length = sh.max_potential_vms
    ∧ (zeroObservation sh).vm_types.length = sh.max_potential_vms
    ∧ (zeroObservation sh).vm_host_map.length = sh.max_potential_vms
    ∧ (zeroObservation sh).infrastructure_observation.length = sh.tree_array_max_len
    ∧ (zeroObservation sh).host_loads.all (fun x => decide (x = 0)) = true
    ∧ (zeroObservation sh).hostRamRatios.all (fun x => decide (x = 0)) = true
    ∧ (zeroObservation sh).vm_loads.all (fun x => decide (x = 0)) = true
    ∧ (zeroObservation sh).vm_types.all (fun x => decide (x = 0)) = true
    ∧ (zeroObservation sh).vm_host_map.all (fun x => decide (x = 0)) = true
    ∧ (zeroObservation sh).infrastructure_observation.all (fun x => decide (x = 0)) = true
    ∧ (zeroObservation sh).waiting_cloudlets = [0]
    ∧ (zeroObservation sh).next_cloudlet_pes = [0] := by
  refine ⟨rfl, ?_, ?_, ?_, ?_, ?_, ?_, ?_, ?_, ?_, ?_, ?_, ?_, rfl, rfl⟩ <;>
    simp [zeroObservation, List.all_eq_true]

/-- Claim C6: an exception from the simulator round-trip inside step is
not propagated: step returns the all-zero observation of the fixed
shape, reward 0.0, terminated = true, truncated = false, and an info
dictionary carrying the error flag. -/
theorem step_failure_synthesizes_terminal (sh : SpaceShape) (norm : NormConfig) (e : PyError) :
    step sh norm (Except.error e)
      = (zeroObservation sh, 0, true, false, { error := some "Step failed" })
    ∧ (step sh norm (Except.error e)).1.host_loads.length = sh.num_hosts
    ∧ (step sh norm (Except.error e)).1.hostRamRatios.length = sh.num_hosts
    ∧ (step sh norm (Except.error e)).1.vm_loads.length = sh.max_potential_vms
    ∧ (step sh norm (Except.error e)).1.vm_types.length = sh.max_potential_vms
    ∧ (step sh norm (Except.error e)).1.vm_host_map.length = sh.max_potential_vms
    ∧ (step sh norm (Except.error e)).1.infrastructure_observation.length = sh.tree_array_max_len
    ∧ (step sh norm (Except.error e)).1.host_loads.all (fun x => decide (x = 0)) = true
    ∧ (step sh norm (Except.error e)).1.vm_types.all (fun x => decide (x = 0)) = true
    ∧ (step sh norm (Except.error e)).2.2.2.2.error = some "Step failed" := by
  refine ⟨rfl, ?_, ?_, ?_, ?_, ?_, ?_, ?_, ?_, rfl⟩ <;>
    simp [step, zeroObservation, List.all_eq_true]

/-- Claim C8 counterexample: a raw snapshot whose host-loads array has
the wrong length is not defensively reshaped — decode raises an
assertion error instead of returning normally. -/
theorem decode_shape_mismatch_counterexample :
    get_obs exShape exNorm (some exRawBadHosts) = Except.error PyError.assertionError := by
  rfl

/-- Claim C8 amended: only the infrastructure tree array is defensively
reshaped by truncation or zero-padding; for the five other arrays a
length disagreement with the SpaceShape raises an assertion error, and
decode returns normally exactly when all five have their fixed length. -/
theorem decode_shape_mismatch_amended (sh : SpaceShape) (norm : NormConfig) (r : RawObs) :
    (r.hostLoads.length = sh.num_hosts → r.hostRamUsageRatios.length = sh.num_hosts →
      r.vmLoads.length = sh.max_potential_vms → r.vmTypes.length = sh.max_potential_vms →
      r.vmHostMap.length = sh.max_potential_vms →
      ∃ o, get_obs sh norm (some r) = Except.ok o
        ∧ o.infrastructure_observation
            = padTruncate sh.tree_array_max_len r.infrastructureObservation
        ∧ o.infrastructure_observation.length = sh.tree_array_max_len
        ∧ o.host_loads = r.hostLoads ∧ o.vm_types = r.vmTypes)
    ∧ (r.hostLoads.length ≠ sh.num_hosts →
        get_obs sh norm (some r) = Except.error PyError.assertionError)
    ∧ (r.hostRamUsageRatios.length ≠ sh.num_hosts →
        get_obs sh norm (some r) = Except.error PyError.assertionError)
    ∧ (r.vmLoads.length ≠ sh.max_potential_vms →
        get_obs sh norm (some r) = Except.error PyError.assertionError)
    ∧ (r.vmTypes.length ≠ sh.max_potential_vms →
        get_obs sh norm (some r) = Except.error PyError.assertionError)
    ∧ (r.vmHostMap.length ≠ sh.max_potential_vms →
        get_obs sh norm (some r) = Except.error PyError.assertionError) := by
  refine ⟨?_, ?_, ?_, ?_, ?_, ?_⟩
  · intro h1 h2 h3 h4 h5
    have heq : get_obs sh norm (some r)
        = Except.ok
            { host_loads := r.hostLoads
              hostRamRatios := r.hostRamUsageRatios
              vm_loads := r.vmLoads
              vm_types := r.vmTypes
              vm_host_map := r.vmHostMap
              infrastructure_observation
                := padTruncate sh.tree_array_max_len r.infrastructureObservation
              waiting_cloudlets := [min (r.waitingCloudlets / norm.max_queue_norm) 1]
              next_cloudlet_pes := [min (r.nextCloudletPes / norm.max_pes_norm) 1] } := by
      simp only [get_obs]
      rw [if_pos ⟨h1, h2, h3, h4, h5⟩]
    exact ⟨_, heq, rfl, padTruncate_length _ _, rfl, rfl⟩
  all_goals
    intro h
    simp only [get_obs]
    rw [if_neg (by tauto)]

/-- Witness for C8: the well-shaped raw snapshot decodes normally with
its over-long infrastructure array reshaped, while the one with a short
host-loads array fails the assertion. -/
theorem decode_shape_mismatch_amended_witness :
    (∃ o, get_obs exShape exNorm (some exRawGood) = Except.ok o
        ∧ o.infrastructure_observation
            = padTruncate exShape.tree_array_max_len exRawGood.infrastructureObservation
        ∧ o.infrastructure_observation.length = exShape.tree_array_max_len
        ∧ o.host_loads = exRawGood.hostLoads ∧ o.vm_types = exRawGood.vmTypes)
    ∧ get_obs exShape exNorm (some exRawBadHosts) = Except.error PyError.assertionError :=
  ⟨(decode_shape_mismatch_amended exShape exNorm exRawGood).1
      (by decide) (by decide) (by decide) (by decide) (by decide),
   (decode_shape_mismatch_amended exShape exNorm exRawBadHosts).2.1 (by decide)⟩

/-- Claim C5 (code bug): on a freshly constructed environment the
last_observation attribute was never assigned, so calling action_masks
before the first reset raises AttributeError instead of returning the
NoOp-only mask; had the attribute held None, the intended mask enabling
exactly NoOp and the three index-0 dummies would have been returned. -/
theorem action_masks_pre_reset_attribute_bug :
    action_masksMethod exMaskCfg LastObsAttr.missing = Except.error PyError.attributeError
    ∧ action_masksMethod exMaskCfg LastObsAttr.noneVal
        = Except.ok
            [true, false, false, false,
             true, false, false,
             true, false,
             true, false, false] := by
  exact ⟨rfl, rfl⟩

/-! ## Claim theorems for the space sizer -/

/-- Claim C3 counterexample: at 5 hosts of 10 PEs with 1-PE small VMs
the code computes ceil of the binary64 product 50 * 1.1 =
55.00000000000001, namely 56, while the exact formula
ceil(host_count * host_pes / small_vm_pes * 1.1) gives 55. -/
theorem max_potential_vms_exact_ceiling_counterexample :
    max_potential_vms exCounterConfig = 56
    ∧ claimed_max_potential_vms exCounterConfig = 55
    ∧ max_potential_vms exCounterConfig ≠ claimed_max_potential_vms exCounterConfig := by
  have h1 : max_potential_vms exCounterConfig = 56 := by decide
  have h2 : claimed_max_potential_vms exCounterConfig = 55 := by
    simp only [claimed_max_potential_vms, datacenter_cores, exCounterConfig]
    norm_num
  exact ⟨h1, h2, by rw [h1, h2]; decide⟩

/-- Claim C3 amended: the degenerate fallback, the job count and the
tree-array-length formula hold as claimed; max_potential_vms is the
ceiling of the binary64 evaluation of the product (which can exceed the
exact rational ceiling, see the counterexample), and the documented
8-host/16-PE/2-PE scenario yields 71 potential VMs and a tree length of
416. -/
theorem space_shape_amended (c : InfraConfig) :
    (c.hosts_count ≤ 0 ∨ c.host_pes ≤ 0 ∨ c.small_vm_pes ≤ 0 →
      max_potential_vms c
        = max 10 (c.initial_s_vm_count + c.initial_m_vm_count + c.initial_l_vm_count))
    ∧ max_potential_jobs c = c.hosts_count * c.host_pes
    ∧ tree_array_max_len c
        = 2 + 2 * c.hosts_count + 2 * max_potential_vms c + 2 * (c.hosts_count * c.host_pes)
    ∧ max_potential_vms exScenarioConfig = 71
    ∧ tree_array_max_len exScenarioConfig = 416 := by
  have hjobs : max_potential_jobs c = c.hosts_count * c.host_pes := by
    simp [max_potential_jobs, datacenter_cores, min_job_pes]
  refine ⟨?_, hjobs, ?_, by decide, by decide⟩
  · intro h
    simp [max_potential_vms, h]
  · simp [tree_array_max_len, hjobs]

/-! ## Claim theorems for the action mask engine -/

theorem action_masks_eq_parts (cfg : MaskConfig) (o : StoredObs) :
    action_masks cfg o
      = (action_masksParts cfg o).actionTypeMask ++ (action_masksParts cfg o).vmIdMask
          ++ (action_masksParts cfg o).hostIdMask ++ (action_masksParts cfg o).vmTypeMask := by
  have hlen : ((action_masksParts cfg o).actionTypeMask ++ (action_masksParts cfg o).vmIdMask
      ++ (action_masksParts cfg o).hostIdMask ++ (action_masksParts cfg o).vmTypeMask).length
      = totalActionDims cfg := by
    simp only [action_masksParts, totalActionDims, List.length_append, List.length_map,
      List.length_range, List.length_cons, List.length_nil]
  simp only [action_masks]
  exact if_neg (fun hne => hne hlen)

theorem vmIdMask_nonempty (cfg : MaskConfig) (o : StoredObs)
    (hV : 0 < cfg.max_potential_vms) :
    ((List.range cfg.max_potential_vms).map (vmIdBitFinal cfg o)).any id = true := by
  rw [List.any_eq_true]
  by_cases hA : anyNonNoOp cfg o = true
  · by_cases hB : anyVmIdBit3 cfg o = true
    · obtain ⟨i, hi, hbit⟩ := List.any_eq_true.mp hB
      exact ⟨vmIdBitFinal cfg o i, List.mem_map_of_mem _ hi,
        by simp [vmIdBitFinal, hbit]⟩
    · refine ⟨vmIdBitFinal cfg o 0, List.mem_map_of_mem _ (List.mem_range.mpr hV), ?_⟩
      rw [Bool.not_eq_true] at hB
      simp [vmIdBitFinal, hA, hB]
  · refine ⟨vmIdBitFinal cfg o 0, List.mem_map_of_mem _ (List.mem_range.mpr hV), ?_⟩
    rw [Bool.not_eq_true] at hA
    simp [vmIdBitFinal, hA]

theorem hostIdMask_nonempty (cfg : MaskConfig) (o : StoredObs)
    (hH : 0 < cfg.num_hosts) :
    ((List.range cfg.num_hosts).map (hostIdBitFinal cfg o)).any id = true := by
  rw [List.any_eq_true]
  by_cases hA : anyNonNoOp cfg o = true
  · by_cases hB : anyHostIdBit3 cfg o = true
    · obtain ⟨h, hh, hbit⟩ := List.any_eq_true.mp hB
      exact ⟨hostIdBitFinal cfg o h, List.mem_map_of_mem _ hh,
        by simp [hostIdBitFinal, hbit]⟩
    · refine ⟨hostIdBitFinal cfg o 0, List.mem_map_of_mem _ (List.mem_range.mpr hH), ?_⟩
      rw [Bool.not_eq_true] at hB
      simp [hostIdBitFinal, hA, hB]
  · refine ⟨hostIdBitFinal cfg o 0, List.mem_map_of_mem _ (List.mem_range.mpr hH), ?_⟩
    rw [Bool.not_eq_true] at hA
    simp [hostIdBitFinal, hA]

theorem vmTypeMask_nonempty (cfg : MaskConfig) (o : StoredObs) :
    ((List.range 3).map (vmTypeBitFinal cfg o)).any id = true := by
  rw [List.any_eq_true]
  by_cases hA : anyNonNoOp cfg o = true
  · by_cases hB : anyVmTypeBit3 cfg o = true
    · obtain ⟨t, ht, hbit⟩ := List.any_eq_true.mp hB
      exact ⟨vmTypeBitFinal cfg o t, List.mem_map_of_mem _ ht,
        by simp [vmTypeBitFinal, hbit]⟩
    · refine ⟨vmTypeBitFinal cfg o 0, List.mem_map_of_mem _ (by decide), ?_⟩
      rw [Bool.not_eq_true] at hB
      simp [vmTypeBitFinal, hA, hB]
  · refine ⟨vmTypeBitFinal cfg o 0, List.mem_map_of_mem _ (by decide), ?_⟩
    rw [Bool.not_eq_true] at hA
    simp [vmTypeBitFinal, hA]

/-- Claim C1: for every stored observation the flattened mask is the
concatenation of the four sub-masks, the NoOp bit (action-type index 0)
is always true, and each of the four sub-masks contains at least one
true entry. -/
theorem mask_every_dimension_nonempty (cfg : MaskConfig) (o : StoredObs)
    (hH : 0 < cfg.num_hosts) (hV : 0 < cfg.max_potential_vms) :
    action_masks cfg o
      = (action_masksParts cfg o).actionTypeMask ++ (action_masksParts cfg o).vmIdMask
          ++ (action_masksParts cfg o).hostIdMask ++ (action_masksParts cfg o).vmTypeMask
    ∧ (action_masksParts cfg o).actionTypeMask.getD 0 false = true
    ∧ (action_masksParts cfg o).actionTypeMask.any id = true
    ∧ (action_masksParts cfg o).vmIdMask.any id = true
    ∧ (action_masksParts cfg o).hostIdMask.any id = true
    ∧ (action_masksParts cfg o).vmTypeMask.any id = true := by
  refine ⟨action_masks_eq_parts cfg o, by simp [action_masksParts], by simp [action_masksParts],
    ?_, ?_, ?_⟩
  · exact vmIdMask_nonempty cfg o hV
  · exact hostIdMask_nonempty cfg o hH
  · exact vmTypeMask_nonempty cfg o

/-- Witness for C1 at the 2-host, 3-slot configuration and the stored
observation exObsW. -/
theorem mask_every_dimension_nonempty_witness :
    0 < exMaskCfg.num_hosts ∧ 0 < exMaskCfg.max_potential_vms
    ∧ (action_masks exMaskCfg exObsW
        = (action_masksParts exMaskCfg exObsW).actionTypeMask
            ++ (action_masksParts exMaskCfg exObsW).vmIdMask
            ++ (action_masksParts exMaskCfg exObsW).hostIdMask
            ++ (action_masksParts exMaskCfg exObsW).vmTypeMask)
    ∧ (action_masksParts exMaskCfg exObsW).actionTypeMask.getD 0 false = true
    ∧ (action_masksParts exMaskCfg exObsW).actionTypeMask.any id = true
    ∧ (action_masksParts exMaskCfg exObsW).vmIdMask.any id = true
    ∧ (action_masksParts exMaskCfg exObsW).hostIdMask.any id = true
    ∧ (action_masksParts exMaskCfg exObsW).vmTypeMask.any id = true :=
  ⟨by decide, by decide,
   (mask_every_dimension_nonempty exMaskCfg exObsW (by decide) (by decide)).1,
   (mask_every_dimension_nonempty exMaskCfg exObsW (by decide) (by decide)).2.1,
   (mask_every_dimension_nonempty exMaskCfg exObsW (by decide) (by decide)).2.2.1,
   (mask_every_dimension_nonempty exMaskCfg exObsW (by decide) (by decide)).2.2.2.1,
   (mask_every_dimension_nonempty exMaskCfg exObsW (by decide) (by decide)).2.2.2.2.1,
   (mask_every_dimension_nonempty exMaskCfg exObsW (by decide) (by decide)).2.2.2.2.2⟩

/-- Claim C2: the scaling-variant action-type bits: an empty queue
forbids Assign; a non-empty queue with no positively-tagged VM slot
forbids Assign; no positively-tagged VM slot forbids Destroy; all hosts
with load ratio at least 0.99 forbid Create. -/
theorem scaling_action_type_bits (cfg : MaskConfig) (o : StoredObs) :
    (o.waiting_cloudlets = 0 →
      (action_masksParts cfg o).actionTypeMask.getD 1 false = false)
    ∧ ((∀ i, i < cfg.max_potential_vms → o.vm_types i ≤ 0) →
      (action_masksParts cfg o).actionTypeMask.getD 1 false = false)
    ∧ ((∀ i, i < cfg.max_potential_vms → o.vm_types i ≤ 0) →
      (action_masksParts cfg o).actionTypeMask.getD 3 false = false)
    ∧ ((∀ h, h < cfg.num_hosts → 99 / 100 ≤ o.host_loads h) →
      (action_masksParts cfg o).actionTypeMask.getD 2 false = false) := by
  have hact : ∀ hvm : ∀ i, i < cfg.max_potential_vms → o.vm_types i ≤ 0,
      activeVmFound cfg o = false := by
    intro hvm
    rw [activeVmFound, List.any_eq_false]
    intro i hi
    simp only [decide_eq_true_eq]
    exact not_lt.mpr (hvm i (List.mem_range.mp hi))
  refine ⟨?_, ?_, ?_, ?_⟩
  · intro h
    have hca : canAssign o = false := by
      rw [canAssign, decide_eq_false_iff_not, h]
      norm_num
    simp [action_masksParts, assignBit, hca]
  · intro hvm
    simp [action_masksParts, assignBit, hact hvm]
  · intro hvm
    simp [action_masksParts, destroyBit, hact hvm]
  · intro hload
    have hsuit : suitableHostFound cfg o = false := by
      rw [suitableHostFound, List.any_eq_false]
      intro h hh
      simp only [hostSuitable, Bool.and_eq_true, decide_eq_true_eq, not_and]
      intro hlt
      exact absurd hlt (not_lt.mpr (hload h (List.mem_range.mp hh)))
    simp [action_masksParts, createBit, hsuit]

/-- Witness for C2 at the stored observation exObsW (empty queue, no
active VM slot, every host at the 0.99 threshold). -/
theorem scaling_action_type_bits_witness :
    (action_masksParts exMaskCfg exObsW).actionTypeMask.getD 1 false = false
    ∧ (action_masksParts exMaskCfg exObsW).actionTypeMask.getD 3 false = false
    ∧ (action_masksParts exMaskCfg exObsW).actionTypeMask.getD 2 false = false :=
  ⟨(scaling_action_type_bits exMaskCfg exObsW).1 rfl,
   (scaling_action_type_bits exMaskCfg exObsW).2.2.1 (fun _ _ => le_refl 0),
   (scaling_action_type_bits exMaskCfg exObsW).2.2.2 (fun _ _ => le_refl ((99 : ℚ) / 100))⟩

/-- Witness for C3 (amended) at the degenerate zero-host configuration
with initial VM counts 2 + 3 + 4. -/
theorem space_shape_amended_witness :
    (exDegenerateConfig.hosts_count ≤ 0 ∨ exDegenerateConfig.host_pes ≤ 0
      ∨ exDegenerateConfig.small_vm_pes ≤ 0)
    ∧ max_potential_vms exDegenerateConfig
        = max 10 (exDegenerateConfig.initial_s_vm_count
            + exDegenerateConfig.initial_m_vm_count + exDegenerateConfig.initial_l_vm_count) :=
  ⟨Or.inl (by decide), (space_shape_amended exDegenerateConfig).1 (Or.inl (by decide))⟩

end LoadBalancingEnv

namespace SaveOnBestTrainingRewardCallback

open Examples

/-! ## Claim theorems for the episode telemetry aggregator -/

theorem accumulatorsLen_set_ts (s : CallbackState) (k n : ℕ) :
    accumulatorsLen { s with num_timesteps := k } n ↔ accumulatorsLen s n := Iff.rfl

theorem accumulatorsLen_current_episode_length {s : CallbackState} {n : ℕ}
    (h : accumulatorsLen s n) : s.current_episode_length = n :=
  h.2.2.2.2.2.2.2.2.2.2.2.2.2.2.2

theorem accumulatorsLen_save (s : CallbackState) (loc : StepLocals) (n : ℕ)
    (h : accumulatorsLen s n) :
    accumulatorsLen (save_timestep_details s loc) (n + 1) := by
  obtain ⟨ha, hr, hw, hu, hc, hq, hi, has, hcs, hds, hit, hhi, hcc, hav, hcl, hlen⟩ := h
  simp [accumulatorsLen, save_timestep_details, ha, hr, hw, hu, hc, hq, hi, has, hcs,
    hds, hit, hhi, hcc, hav, hcl, hlen]

theorem runNonTerminal_acc (locs : List StepLocals) :
    ∀ (s : CallbackState) (n : ℕ), accumulatorsLen s n → (∀ l ∈ locs, l.done = false) →
      accumulatorsLen (runNonTerminal s locs) (n + locs.length) := by
  induction locs with
  | nil =>
    intro s n h _
    simpa [runNonTerminal] using h
  | cons l ls ih =>
    intro s n h hall
    have hl : l.done = false := hall l (List.mem_cons_self l ls)
    have hone : runNonTerminal s (l :: ls) = runNonTerminal ((on_step s l false).1) ls := by
      simp [runNonTerminal]
    have hstep : (on_step s l false).1
        = save_timestep_details { s with num_timesteps := s.num_timesteps + 1 } l := by
      simp [on_step, hl]
    have hacc1 : accumulatorsLen ((on_step s l false).1) (n + 1) := by
      rw [hstep]
      exact accumulatorsLen_save _ _ _ ((accumulatorsLen_set_ts s _ n).mpr h)
    have hrec := ih ((on_step s l false).1) (n + 1) hacc1
      (fun x hx => hall x (List.mem_cons_of_mem _ hx))
    rw [hone]
    have harith : n + 1 + ls.length = n + (l :: ls).length := by
      simp [List.length_cons]
      omega
    rw [harith] at hrec
    exact hrec

theorem fitColumn_length {α : Type} (expected : ℕ) (pad : α) (l : List α) :
    (fitColumn expected pad l).length = expected := by
  unfold fitColumn
  by_cases h : expected < l.length
  · simp only [if_pos h, List.length_take]
    omega
  · simp only [if_neg h, List.length_append, List.length_replicate]
    omega

theorem fitBoolColumn_length (expected : ℕ) (l : List Bool) :
    (fitBoolColumn expected l).length = expected := by
  unfold fitBoolColumn
  exact fitColumn_length expected none (l.map some)

theorem detailsRows_create (s : CallbackState) :
    detailsRows (create_episode_details_dict s) s.current_episode_length := by
  simp [detailsRows, create_episode_details_dict, fitColumn_length, fitBoolColumn_length]

theorem detailsRows_create_of_len (s : CallbackState) (n : ℕ)
    (h : s.current_episode_length = n) :
    detailsRows (create_episode_details_dict s) n := h ▸ detailsRows_create s

/-- Claim C9: after N non-terminal steps from a cleared state followed by
one terminal step, the accumulators at the terminal step all hold N + 1
entries, the assembled episode-details table (produced exactly when the
rolling-mean objective improved) has N + 1 rows in every column, and the
state left behind has empty accumulators and a zero episode-length
counter. -/
theorem episode_boundary_law (s0 : CallbackState) (locs : List StepLocals) (t : StepLocals)
    (b : Bool) (h0 : accumulatorsLen s0 0) (hpre : ∀ l ∈ locs, l.done = false)
    (ht : t.done = true) :
    accumulatorsLen
      (save_timestep_details
        { runNonTerminal s0 locs with
            num_timesteps := (runNonTerminal s0 locs).num_timesteps + 1 } t)
      (locs.length + 1)
    ∧ ((on_step (runNonTerminal s0 locs) t true).2).isSome = true
    ∧ (∀ tbl, (on_step (runNonTerminal s0 locs) t b).2 = some tbl →
        detailsRows tbl (locs.length + 1))
    ∧ accumulatorsLen (on_step (runNonTerminal s0 locs) t b).1 0 := by
  have hrun : accumulatorsLen (runNonTerminal s0 locs) locs.length := by
    have h := runNonTerminal_acc locs s0 0 h0 hpre
    simpa using h
  have hsave : accumulatorsLen
      (save_timestep_details
        { runNonTerminal s0 locs with
            num_timesteps := (runNonTerminal s0 locs).num_timesteps + 1 } t)
      (locs.length + 1) :=
    accumulatorsLen_save _ t _ ((accumulatorsLen_set_ts _ _ _).mpr hrun)
  refine ⟨hsave, ?_, ?_, ?_⟩
  · simp [on_step, ht]
  · intro tbl htbl
    cases b with
    | false => simp [on_step, ht] at htbl
    | true =>
      simp only [on_step, ht, if_true] at htbl
      rw [← Option.some.inj htbl]
      exact detailsRows_create_of_len _ _ (accumulatorsLen_current_episode_length hsave)
  · cases b <;> simp [on_step, ht, clear_episode_details, accumulatorsLen]

/-- Witness for C9: one non-terminal step followed by one terminal step
from the freshly constructed callback state. -/
theorem episode_boundary_law_witness :
    accumulatorsLen exInitState 0
    ∧ (∀ l ∈ [exStep1], l.done = false)
    ∧ exStepT.done = true
    ∧ accumulatorsLen
        (save_timestep_details
          { runNonTerminal exInitState [exStep1] with
              num_timesteps := (runNonTerminal exInitState [exStep1]).num_timesteps + 1 }
          exStepT) 2
    ∧ ((on_step (runNonTerminal exInitState [exStep1]) exStepT true).2).isSome = true
    ∧ accumulatorsLen (on_step (runNonTerminal exInitState [exStep1]) exStepT true).1 0 := by
  have h0 : accumulatorsLen exInitState 0 := by
    simp [accumulatorsLen, exInitState]
  have hpre : ∀ l ∈ [exStep1], l.done = false := by decide
  have ht : exStepT.done = true := rfl
  have happ := episode_boundary_law exInitState [exStep1] exStepT true h0 hpre ht
  exact ⟨h0, hpre, ht, happ.1, happ.2.1, happ.2.2.2⟩

end SaveOnBestTrainingRewardCallback
